import Mathlib

/-!
Shallow embedding of `server.js` (an Express product CRUD API) and proofs
about its request-handling behaviour.

The embedding models JSON field values, request bodies, the in-memory
product list, the middleware chain (auth check, body validation), the
route handlers in their registration order, and the error-mapping
middleware.  JavaScript-specific semantics that the handlers rely on
(truthiness, `== null`, `parseInt`, `Array.prototype.slice` with negative
indices, object spread) are modelled explicitly.
-/

/-- A JSON-ish JavaScript value as it can appear in a request body or a
stored product field.  Numbers are modelled as integers: every numeric
literal in the source and in the claims is an integer, and `NaN`
never arises as a stored field value in the behaviours under study. -/
inductive JSVal where
  | str : String → JSVal
  | num : Int → JSVal
  | bool : Bool → JSVal
  | null : JSVal
deriving DecidableEq

/-- A product-shaped JavaScript object: each of the six keys the server
ever reads or writes is either absent (`none`, i.e. `undefined` when
destructured) or present with a value.  Used both for request bodies and
for records stored in the `products` array. -/
structure Obj where
  id : Option JSVal
  name : Option JSVal
  description : Option JSVal
  price : Option JSVal
  category : Option JSVal
  inStock : Option JSVal
deriving DecidableEq

/-- JavaScript truthiness test `!x` on a possibly-absent value:
`undefined`, `null`, `""`, `0` and `false` are falsy. -/
def jsFalsy : Option JSVal → Bool
  | none => true
  | some .null => true
  | some (.str s) => s == ""
  | some (.num n) => n == 0
  | some (.bool b) => !b

/-- JavaScript loose `x == null`, true exactly for `null` and `undefined`. -/
def jsNullish : Option JSVal → Bool
  | none => true
  | some .null => true
  | some _ => false

/-- The validation middleware `validateProduct` (server.js lines 46-52):
the request is rejected when
`!name || !description || price == null || !category || inStock == null`. -/
def validateFails (b : Obj) : Bool :=
  jsFalsy b.name || jsFalsy b.description || jsNullish b.price ||
    jsFalsy b.category || jsNullish b.inStock

/-- An error object as thrown by the handlers: its `name`, the `status`
field set by the custom error classes (absent on a plain `Error`), and
its `message`. -/
structure JsError where
  name : String
  status : Option Nat
  message : String
deriving DecidableEq

/-- The error `new NotFoundError(msg)` (server.js lines 11-17). -/
def notFoundErr (m : String) : JsError := ⟨ "NotFoundError", some 404, m⟩

/-- The error `new ValidationError(msg)` (server.js lines 18-24). -/
def validationErr (m : String) : JsError := ⟨ "ValidationError", some 400, m⟩

/-- The possible JSON (or text) response payloads the server produces. -/
inductive ResBody where
  | text : String → ResBody
  | jsonMsg : String → ResBody
  | productList : List Obj → ResBody
  | product : Obj → ResBody
  | deleted : String → Obj → ResBody
  | stats : Nat → List (String × Nat) → ResBody
  | err : String → String → ResBody
deriving DecidableEq

/-- An HTTP response: status code and JSON/text payload. -/
structure Response where
  status : Nat
  body : ResBody
deriving DecidableEq

/-- JavaScript `a || b` specialised to a possibly-absent number used as a
status code: `undefined` and `0` fall through to the default. -/
def jsOrStatus (v : Option Nat) (d : Nat) : Nat :=
  match v with
  | some n => if n == 0 then d else n
  | none => d

/-- The error-handler middleware (server.js lines 181-185):
`status = err.status || 500`, body `\x7b error: err.name, message: err.message \x7d`. -/
def errorHandler (e : JsError) : Response :=
  ⟨jsOrStatus e.status 500, .err e.name e.message⟩

/-- JavaScript `a || b` for a possibly-NaN integer (`parseInt` result):
`NaN` (`none`) and `0` fall through to the default. -/
def jsOrInt (v : Option Int) (d : Int) : Int :=
  match v with
  | some n => if n == 0 then d else n
  | none => d

/-- JavaScript `parseInt` restricted to base-10 inputs: skip leading
whitespace, take an optional sign and then a maximal run of decimal
digits; `NaN` (`none`) when no digit is found.  (Radix prefixes such as
`0x` are not modelled; no claim depends on them.) -/
def jsParseInt (s : String) : Option Int :=
  let cs := s.data.dropWhile (fun c => c == ' ' || c == '\t' || c == '\n' || c == '\r')
  let signAndRest : Int × List Char :=
    match cs with
    | '-' :: t => (-1, t)
    | '+' :: t => (1, t)
    | _ => (1, cs)
  let ds := signAndRest.2.takeWhile Char.isDigit
  if ds.isEmpty then none
  else some (signAndRest.1 * Int.ofNat (ds.foldl (fun acc c => acc * 10 + (c.toNat - 48)) 0))

/-- JavaScript `Array.prototype.slice(start, end)` index semantics:
negative indices count from the end, indices are clamped to `[0, length]`,
and an empty window yields `[]`. -/
def jsSlice (l : List α) (s e : Int) : List α :=
  let n : Int := (l.length : Int)
  let s2 := if s < 0 then max (n + s) 0 else min s n
  let e2 := if e < 0 then max (n + e) 0 else min e n
  if s2 < e2 then (l.drop s2.toNat).take (e2 - s2).toNat else []

/-- Leading-segment test on char lists: does the first list begin the
second? -/
def charsStartWith : List Char → List Char → Bool
  | [], _ => true
  | _ :: _, [] => false
  | c :: cs, d :: ds => c == d && charsStartWith cs ds

/-- Is the first char list a contiguous sublist of the second? -/
def charsContain (nee : List Char) : List Char → Bool
  | [] => nee.isEmpty
  | c :: t => charsStartWith nee (c :: t) || charsContain nee t

/-- JavaScript `hay.includes(nee)` for strings. -/
def strIncludes (hay nee : String) : Bool := charsContain nee.data hay.data

/-- JavaScript `String.prototype.toLowerCase()` (character-wise ASCII lowering, which
agrees with JavaScript on all the data in play). -/
def jsToLower (s : String) : String := ⟨s.data.map Char.toLower⟩

/-- Reading a field the handler treats as a string (`.toLowerCase()`,
`.includes(...)`).  Every record the server itself stores from its seed
data has strings here; a non-string is mapped to `""` (in JavaScript it
would raise a `TypeError`, a behaviour outside the claims under study). -/
def strOf : Option JSVal → String
  | some (.str s) => s
  | _ => ""

/-- Strict equality `p.id === req.params.id` of the stored `id` field
against the (string) path parameter. -/
def hasId (pid : String) (p : Obj) : Bool := p.id == some (.str pid)

/-- The `GET /api/products` handler (server.js lines 89-117): copy the
collection, optionally filter by case-insensitive substring `search` over
`name`/`description`, optionally filter by case-insensitive `category`
equality, then paginate with `page`/`limit` via `parseInt ... || default`
and `slice`. -/
structure Query where
  search : Option String
  category : Option String
  page : Option String
  limit : Option String
deriving DecidableEq

def getProducts (q : Query) (ps : List Obj) : List Obj :=
  let result := ps
  let result :=
    match q.search.map jsToLower with
    | some s =>
        if s ≠ "" then
          result.filter (fun p =>
            strIncludes (jsToLower (strOf p.name)) s ||
              strIncludes (jsToLower (strOf p.description)) s)
        else result
    | none => result
  let result :=
    match q.category.map jsToLower with
    | some c =>
        if c ≠ "" then result.filter (fun p => jsToLower (strOf p.category) == c)
        else result
    | none => result
  let page := jsOrInt (q.page.bind jsParseInt) 1
  let limit := jsOrInt (q.limit.bind jsParseInt) ((result.length : Int))
  let start := (page - 1) * limit
  jsSlice result start (start + limit)

/-- The `GET /api/products/:id` handler (server.js lines 120-128): linear
`find` by strict id equality; `NotFoundError` is thrown and mapped by the
error handler. -/
def getByIdRoute (pid : String) (ps : List Obj) : Response × List Obj :=
  match ps.find? (hasId pid) with
  | some p => (⟨200, .product p⟩, ps)
  | none => (errorHandler (notFoundErr "Product not found"), ps)

/-- Object spread `\x7b ...p, ...b \x7d`: every key present in `b`
overrides the one in `p` — the stored `id` included. -/
def mergeObj (p b : Obj) : Obj :=
  ⟨b.id <|> p.id, b.name <|> p.name, b.description <|> p.description,
    b.price <|> p.price, b.category <|> p.category, b.inStock <|> p.inStock⟩

/-- The object literal `\x7b id: uuidv4(), ...req.body \x7d` (server.js line 133): the fresh
uuid is written first, so an `id` key present in the body overrides it. -/
def newProduct (fresh : String) (b : Obj) : Obj :=
  ⟨b.id <|> some (.str fresh), b.name, b.description, b.price, b.category, b.inStock⟩

/-- The `POST /api/products` handler (server.js lines 131-139), with the
`validateProduct` middleware run first.  `fresh` stands for the
`uuidv4()` draw of this request. -/
def postRoute (fresh : String) (b : Obj) (ps : List Obj) : Response × List Obj :=
  if validateFails b then
    (errorHandler (validationErr "Missing required product fields"), ps)
  else
    let np := newProduct fresh b
    (⟨201, .product np⟩, ps ++ [np])

/-- The `findIndex`-then-assign step on the first record matching `pid`
(server.js lines 144-147): returns the updated record and list, or
`none` when `findIndex` yields `-1`. -/
def updateById (pid : String) (b : Obj) : List Obj → Option (Obj × List Obj)
  | [] => none
  | p :: rest =>
    if hasId pid p then
      let p2 := mergeObj p b
      some (p2, p2 :: rest)
    else
      match updateById pid b rest with
      | some (p2, rest2) => some (p2, p :: rest2)
      | none => none

/-- The `PUT /api/products/:id` handler (server.js lines 142-151), with the
`validateProduct` middleware run first. -/
def putRoute (pid : String) (b : Obj) (ps : List Obj) : Response × List Obj :=
  if validateFails b then
    (errorHandler (validationErr "Missing required product fields"), ps)
  else
    match updateById pid b ps with
    | some (p2, ps2) => (⟨200, .product p2⟩, ps2)
    | none => (errorHandler (notFoundErr "Product not found"), ps)

/-- The `findIndex`-then-`splice(index, 1)` step on the first record matching
`pid` (server.js lines 156-158): returns the removed record and the
remaining list, or `none` when `findIndex` yields `-1`. -/
def deleteById (pid : String) : List Obj → Option (Obj × List Obj)
  | [] => none
  | p :: rest =>
    if hasId pid p then some (p, rest)
    else
      match deleteById pid rest with
      | some (d, rest2) => some (d, p :: rest2)
      | none => none

/-- The `DELETE /api/products/:id` handler (server.js lines 154-163). -/
def deleteRoute (pid : String) (ps : List Obj) : Response × List Obj :=
  match deleteById pid ps with
  | some (d, ps2) => (⟨200, .deleted "Product deleted" d⟩, ps2)
  | none => (errorHandler (notFoundErr "Product not found"), ps)

/-- Insertion-ordered category counting,
`stats.categories[cat] = (stats.categories[cat] || 0) + 1`. -/
def bumpCount : List (String × Nat) → String → List (String × Nat)
  | [], k => [(k, 1)]
  | (k2, v) :: rest, k =>
    if k2 == k then (k2, v + 1) :: rest else (k2, v) :: bumpCount rest k

/-- The `GET /api/products/stats` handler body (server.js lines 166-178):
total count plus per-lowercased-category counts.  Note: this route is
registered AFTER `GET /api/products/:id`, so in the running server it is
never reached — `dispatch` below reflects that registration order. -/
def statsRoute (ps : List Obj) : Response :=
  ⟨200, .stats ps.length (ps.foldl (fun m p => bumpCount m (jsToLower (strOf p.category))) [])⟩

inductive Method where
  | get
  | post
  | put
  | del
deriving DecidableEq

/-- An incoming HTTP request as the modelled routes see it. -/
structure Request where
  method : Method
  path : List String
  apiKey : Option String
  query : Query
  body : Obj
deriving DecidableEq

def welcomeText : String :=
  "Welcome to the Product API! Go to /api/products to see all products."

/-- The full middleware + routing pipeline of server.js: the auth check
(lines 37-43) runs before any route; then Express tries routes in
registration order (lines 84-178).  Since `GET /api/products/:id` (line
120) is registered before `GET /api/products/stats` (line 166), the
three-segment `GET` arm below captures the path `api/products/stats` with
`pid = "stats"` and the stats handler is unreachable, exactly as in the
source.  `fresh` stands for the `uuidv4()` draw used if this request
creates a product. -/
def dispatch (fresh : String) (req : Request) (ps : List Obj) : Response × List Obj :=
  if req.apiKey ≠ some "12345" then
    (⟨401, .jsonMsg "Unauthorized - Invalid API Key"⟩, ps)
  else
    match req.method, req.path with
    | .get, [] => (⟨200, .text welcomeText⟩, ps)
    | .get, ["api", "products"] => (⟨200, .productList (getProducts req.query ps)⟩, ps)
    | .get, ["api", "products", pid] => getByIdRoute pid ps
    | .post, ["api", "products"] => postRoute fresh req.body ps
    | .put, ["api", "products", pid] => putRoute pid req.body ps
    | .del, ["api", "products", pid] => deleteRoute pid ps
    | _, _ => (⟨404, .text "Cannot resolve route"⟩, ps)

/-- The three seed records (server.js lines 55-80). -/
def seed1 : Obj :=
  ⟨some (.str "1"), some (.str "Laptop"),
    some (.str "High-performance laptop with 16GB RAM"),
    some (.num 1200), some (.str "electronics"), some (.bool true)⟩

def seed2 : Obj :=
  ⟨some (.str "2"), some (.str "Smartphone"),
    some (.str "Latest model with 128GB storage"),
    some (.num 800), some (.str "electronics"), some (.bool true)⟩

def seed3 : Obj :=
  ⟨some (.str "3"), some (.str "Coffee Maker"),
    some (.str "Programmable coffee maker with timer"),
    some (.num 50), some (.str "kitchen"), some (.bool false)⟩

def initialProducts : List Obj := [seed1, seed2, seed3]

/-- A request body with no fields at all. -/
def emptyBody : Obj := ⟨none, none, none, none, none, none⟩

/-- No query parameters. -/
def emptyQuery : Query := ⟨none, none, none, none⟩

/-- An authorized `GET /api/products` request with query parameters. -/
def listReq (q : Query) : Request := ⟨.get, ["api", "products"], some "12345", q, emptyBody⟩

/-- An authorized `GET /api/products/:id` request. -/
def getReq (pid : String) : Request :=
  ⟨.get, ["api", "products", pid], some "12345", emptyQuery, emptyBody⟩

/-- An authorized `POST /api/products` request. -/
def postReq (b : Obj) : Request := ⟨.post, ["api", "products"], some "12345", emptyQuery, b⟩

/-- An authorized `PUT /api/products/:id` request. -/
def putReq (pid : String) (b : Obj) : Request :=
  ⟨.put, ["api", "products", pid], some "12345", emptyQuery, b⟩

/-- An authorized `DELETE /api/products/:id` request. -/
def delReq (pid : String) : Request :=
  ⟨.del, ["api", "products", pid], some "12345", emptyQuery, emptyBody⟩

/-- An authorized `GET /api/products/stats` request. -/
def statsReq : Request :=
  ⟨.get, ["api", "products", "stats"], some "12345", emptyQuery, emptyBody⟩

/-- The partial-update body `\x7b price: 999 \x7d` from the spec's PUT example. -/
def priceOnlyBody : Obj := ⟨none, none, none, some (.num 999), none, none⟩

/-- A body passing validation but also smuggling an `id` key. -/
def bodyWithId : Obj :=
  ⟨some (.str "1"), some (.str "Desk"), some (.str "Solid oak desk"),
    some (.num 300), some (.str "furniture"), some (.bool true)⟩

/-- A valid body with no `id` key. -/
def validBody : Obj :=
  ⟨none, some (.str "Desk"), some (.str "Solid oak desk"),
    some (.num 300), some (.str "furniture"), some (.bool true)⟩

/-- A body whose `price` is `0` and `inStock` is `false` — present values
that the Validator must accept. -/
def zeroFalseBody : Obj :=
  ⟨none, some (.str "Freebie"), some (.str "Promotional sticker"),
    some (.num 0), some (.str "misc"), some (.bool false)⟩

/-!
Spec-side definitions.  These follow the wording of the specification
(section 4.3 Query Engine and 4.2 Validator), to be compared against the
source-derived `getProducts` and `validateFails` above.
-/

/-- Modelled from the spec: keep records whose `name` or `description`
contains the search string as a substring, case-insensitively. -/
def specSearchKeep (s : String) (p : Obj) : Bool :=
  strIncludes (jsToLower (strOf p.name)) (jsToLower s) ||
    strIncludes (jsToLower (strOf p.description)) (jsToLower s)

/-- Modelled from the spec: keep records whose `category` equals the
requested one, case-insensitively. -/
def specCategoryKeep (c : String) (p : Obj) : Bool :=
  jsToLower (strOf p.category) == jsToLower c

/-- The Query Engine's filter phases in the spec's fixed order: search
first, then category.  A parameter counts as present when it is supplied
with a non-empty value (a supplied-but-empty query value is treated as
absent, matching the truthiness test the pipeline applies). -/
def specFilteredView (q : Query) (ps : List Obj) : List Obj :=
  let afterSearch :=
    match q.search with
    | some s => if jsToLower s ≠ "" then ps.filter (fun p => specSearchKeep s p) else ps
    | none => ps
  match q.category with
  | some c =>
      if jsToLower c ≠ "" then afterSearch.filter (fun p => specCategoryKeep c p)
      else afterSearch
  | none => afterSearch

/-- The Query Engine end to end as the spec describes it: filter, then
slice `[start, end)` with `start = (page-1)*limit`, `end = start+limit`,
`page` defaulting to 1 and `limit` to the filtered length when the
parameter is absent or non-numeric (a parameter parsing to `0` also falls
back to the default, the behaviour recorded separately for the
pagination fallback). -/
def specListResponse (q : Query) (ps : List Obj) : List Obj :=
  let filtered := specFilteredView q ps
  let page := jsOrInt (q.page.bind jsParseInt) 1
  let limit := jsOrInt (q.limit.bind jsParseInt) ((filtered.length : Int))
  let start := (page - 1) * limit
  jsSlice filtered start (start + limit)

/-- Modelled from the spec: the Validator's absence condition — `name`,
`description`, `category` are checked as falsy, `price` and `inStock`
strictly as null/undefined (so `0` and `false` count as present). -/
def specMissingField (b : Obj) : Prop :=
  jsFalsy b.name = true ∨ jsFalsy b.description = true ∨ jsNullish b.price = true ∨
    jsFalsy b.category = true ∨ jsNullish b.inStock = true

instance (b : Obj) : Decidable (specMissingField b) := by
  unfold specMissingField
  infer_instance

/-!
Theorems.  Helper lemmas come first; each claim is settled by exactly one
named theorem (plus witness or counterexample theorems where needed).
-/

theorem getProducts_eq_specListResponse (q : Query) (ps : List Obj) :
    getProducts q ps = specListResponse q ps := by
  cases hs : q.search <;> cases hc : q.category <;>
    simp only [getProducts, specListResponse, specFilteredView, specSearchKeep,
      specCategoryKeep, hs, hc, Option.map_some', Option.map_none']

/-- C1: the claim says `GET /api/products/stats` answers 200 with the
stats body and is not shadowed by `/api/products/:id`.  In the source the
stats route is registered after the parameterized route, so the request
is captured by `:id` with `id = "stats"` and answers 404; the stats
handler itself, were it reachable, would produce exactly the claimed
body on the seed data. -/
theorem c1_stats_route_shadowed :
    dispatch "f" statsReq initialProducts =
      (⟨404, .err "NotFoundError" "Product not found"⟩, initialProducts) ∧
    statsRoute initialProducts = ⟨200, .stats 3 [("electronics", 2), ("kitchen", 1)]⟩ := by
  decide

/-- C2 counterexample: an authorized `PUT /api/products/1` with body
only containing price 999 on the seed store answers 400, not the claimed
200, and leaves the store unchanged (the validator requires the full
field set before the handler runs). -/
theorem c2_put_price_only_cex :
    (dispatch "f" (putReq "1" priceOnlyBody) initialProducts).1.status = 400 ∧
    (dispatch "f" (putReq "1" priceOnlyBody) initialProducts).2 = initialProducts ∧
    (dispatch "f" (putReq "1" priceOnlyBody) initialProducts).1.status ≠ 200 := by
  decide

/-- C2 (amended): for every store and every id — present or not — an
authorized `PUT /api/products/:id` with body only containing price 999
is rejected by the full-body validator with 400
(ValidationError, "Missing required product fields") before the
existence check, and the store is left unchanged. -/
theorem c2_put_price_only_rejected (fresh pid : String) (ps : List Obj) :
    dispatch fresh (putReq pid priceOnlyBody) ps =
      (⟨400, .err "ValidationError" "Missing required product fields"⟩, ps) := rfl

/-- C7: every request whose `x-api-key` header is missing or different
from "12345" is answered 401 with exactly the unauthorized message, on
any route, before any route handler runs, and the store is unchanged. -/
theorem c7_auth_rejects_bad_key (fresh : String) (req : Request) (ps : List Obj)
    (h : req.apiKey ≠ some "12345") :
    dispatch fresh req ps = (⟨401, .jsonMsg "Unauthorized - Invalid API Key"⟩, ps) := by
  simp only [dispatch]
  rw [if_pos h]

theorem c7_auth_rejects_bad_key_witness :
    ((⟨.get, [], none, emptyQuery, emptyBody⟩ : Request).apiKey ≠ some "12345") ∧
    dispatch "f" ⟨.get, [], none, emptyQuery, emptyBody⟩ initialProducts =
      (⟨401, .jsonMsg "Unauthorized - Invalid API Key"⟩, initialProducts) :=
  ⟨by decide, c7_auth_rejects_bad_key "f" ⟨.get, [], none, emptyQuery, emptyBody⟩
    initialProducts (by decide)⟩

/-- C9: the error-handler middleware is the single mapping from
propagated errors to responses: a ValidationError maps to 400, a
NotFoundError to 404, and an error carrying no status (a plain `Error`,
whatever its kind name) to 500, always with body
`error = kind name, message = message`. -/
theorem c9_error_mapper (m1 m2 nm m3 : String) :
    errorHandler (validationErr m1) = ⟨400, .err "ValidationError" m1⟩ ∧
    errorHandler (notFoundErr m2) = ⟨404, .err "NotFoundError" m2⟩ ∧
    errorHandler ⟨nm, none, m3⟩ = ⟨500, .err nm m3⟩ :=
  ⟨rfl, rfl, rfl⟩

/-- C4: every authorized `GET /api/products` answers 200 with the list
computed by the spec's Query Engine pipeline — search filter, then
category filter, then the `[start, end)` slice with `page` defaulting to
1 and `limit` to the filtered length — and never an error, whatever the
query parameters; the store is untouched. -/
theorem c4_get_products_pipeline (fresh : String) (q : Query) (ps : List Obj) :
    dispatch fresh (listReq q) ps = (⟨200, .productList (specListResponse q ps)⟩, ps) := by
  have h : dispatch fresh (listReq q) ps = (⟨200, .productList (getProducts q ps)⟩, ps) := rfl
  rw [h, getProducts_eq_specListResponse]

theorem jsSlice_full (l : List α) : jsSlice l 0 ((l.length : Int)) = l := by
  simp only [jsSlice]
  have hn : (0 : Int) ≤ (l.length : Int) := Int.ofNat_nonneg _
  rw [if_neg (by omega : ¬ (0 : Int) < 0), if_neg (by omega : ¬ (l.length : Int) < 0),
    min_self, min_eq_left hn]
  by_cases h : (0 : Int) < (l.length : Int)
  · rw [if_pos h]
    simp
  · rw [if_neg h]
    have h0 : l.length = 0 := by omega
    exact (List.eq_nil_of_length_eq_zero h0).symm

theorem jsParseInt_zero_str : jsParseInt "0" = some 0 := rfl

/-- C10: a `page` or `limit` query value parsing to `0` falls through the
`|| default` fallback exactly like an absent parameter — `page` becomes
1 and `limit` the filtered length — so `limit=0` returns the entire
filtered result rather than an empty list. -/
theorem c10_zero_page_limit_default (s c : Option String) (ps : List Obj) :
    getProducts ⟨s, c, some "0", some "0"⟩ ps = getProducts ⟨s, c, none, none⟩ ps ∧
    getProducts ⟨s, c, none, some "0"⟩ ps = specFilteredView ⟨s, c, none, some "0"⟩ ps := by
  constructor
  · rfl
  · rw [getProducts_eq_specListResponse]
    simp only [specListResponse, Option.some_bind, Option.none_bind, jsParseInt_zero_str,
      jsOrInt]
    norm_num
    exact jsSlice_full _

/-- C3: the claim says a stored product's id is unique and never changed
by later operations, even when a request body smuggles an `id` field.
In the source both write handlers spread `req.body` last, so a body `id`
key overrides the server-side value: an authorized PUT on seed id "2"
with a full valid body carrying `id: "1"` rewrites that record's id to
"1", leaving two live records with id "1"; an authorized POST with the
same body stores "1" instead of the generated uuid, again duplicating an
existing id. -/
theorem c3_body_id_overrides_stored_id :
    ((dispatch "f" (putReq "2" bodyWithId) initialProducts).2.map Obj.id =
      [some (.str "1"), some (.str "1"), some (.str "3")]) ∧
    ¬ ((dispatch "f" (putReq "2" bodyWithId) initialProducts).2.map Obj.id).Nodup ∧
    ((dispatch "11111111-2222-3333-4444-555555555555" (postReq bodyWithId)
        initialProducts).2.map Obj.id =
      [some (.str "1"), some (.str "2"), some (.str "3"), some (.str "1")]) := by
  decide

/-- C6 counterexample: an authorized POST whose body passes validation
but carries `id: "1"` stores that id rather than a server-generated one:
the response is 201, yet the appended record's id equals the already
present id "1", contradicting the claimed distinctness for every
validation-passing body. -/
theorem c6_post_body_id_cex :
    (dispatch "11111111-2222-3333-4444-555555555555" (postReq bodyWithId)
        initialProducts).1.status = 201 ∧
    (dispatch "11111111-2222-3333-4444-555555555555" (postReq bodyWithId)
        initialProducts).2.map Obj.id =
      [some (.str "1"), some (.str "2"), some (.str "3"), some (.str "1")] := by
  decide

/-- C5: a write request (POST or PUT) is rejected with 400
("Missing required product fields") and leaves the store unchanged
exactly when the body misses a required field in the Validator's sense —
`name`, `description`, `category` tested as falsy, `price` and `inStock`
only as null/undefined, so `price: 0` and `inStock: false` pass; a body
passing the check is never answered 400. -/
theorem c5_validation_gate (fresh pid : String) (b : Obj) (ps : List Obj) :
    (validateFails b = true ↔ specMissingField b) ∧
    (validateFails b = true →
      dispatch fresh (postReq b) ps =
        (⟨400, .err "ValidationError" "Missing required product fields"⟩, ps) ∧
      dispatch fresh (putReq pid b) ps =
        (⟨400, .err "ValidationError" "Missing required product fields"⟩, ps)) ∧
    (validateFails b = false →
      (dispatch fresh (postReq b) ps).1.status = 201 ∧
      (dispatch fresh (putReq pid b) ps).1.status ≠ 400) := by
  have e1 : dispatch fresh (postReq b) ps = postRoute fresh b ps := rfl
  have e2 : dispatch fresh (putReq pid b) ps = putRoute pid b ps := rfl
  refine ⟨?_, ?_, ?_⟩
  · simp [validateFails, specMissingField]
    tauto
  · intro h
    rw [e1, e2]
    constructor
    · simp [postRoute, h, errorHandler, validationErr, jsOrStatus]
    · simp [putRoute, h, errorHandler, validationErr, jsOrStatus]
  · intro h
    rw [e1, e2]
    constructor
    · simp [postRoute, h]
    · simp only [putRoute, h, Bool.false_eq_true, if_false]
      cases hu : updateById pid b ps with
      | none => simp [errorHandler, notFoundErr, jsOrStatus]
      | some pr => simp

theorem c5_validation_gate_witness :
    (validateFails emptyBody = true ∧
      dispatch "f" (postReq emptyBody) initialProducts =
        (⟨400, .err "ValidationError" "Missing required product fields"⟩, initialProducts)) ∧
    (validateFails zeroFalseBody = false ∧
      (dispatch "f" (postReq zeroFalseBody) initialProducts).1.status = 201) :=
  ⟨⟨by decide, ((c5_validation_gate "f" "1" emptyBody initialProducts).2.1 (by decide)).1⟩,
    ⟨by decide, ((c5_validation_gate "f" "1" zeroFalseBody initialProducts).2.2 (by decide)).1⟩⟩

theorem hasId_eq_true_iff (pid : String) (p : Obj) :
    hasId pid p = true ↔ p.id = some (.str pid) := by
  simp [hasId]

/-- C6 (amended): for every authorized POST whose body passes validation
and carries no `id` key, and whose `uuidv4()` draw differs from every
stored id, the response is 201 with the created record, that record
carries the generated id, is appended at the end (count + 1), and a
subsequent `GET /api/products/:id` on the generated id returns it. -/
theorem c6_post_valid_body_inserts (fresh : String) (b : Obj) (ps : List Obj)
    (hid : b.id = none) (hv : validateFails b = false)
    (hfresh : ∀ p ∈ ps, p.id ≠ some (.str fresh)) :
    dispatch fresh (postReq b) ps =
      (⟨201, .product (newProduct fresh b)⟩, ps ++ [newProduct fresh b]) ∧
    (newProduct fresh b).id = some (.str fresh) ∧
    (ps ++ [newProduct fresh b]).length = ps.length + 1 ∧
    getByIdRoute fresh (ps ++ [newProduct fresh b]) =
      (⟨200, .product (newProduct fresh b)⟩, ps ++ [newProduct fresh b]) := by
  have hnp : (newProduct fresh b).id = some (.str fresh) := by
    simp [newProduct, hid]
  refine ⟨?_, hnp, by simp, ?_⟩
  · have e : dispatch fresh (postReq b) ps = postRoute fresh b ps := rfl
    rw [e]
    simp [postRoute, hv]
  · have hfind : (ps ++ [newProduct fresh b]).find? (hasId fresh) =
        some (newProduct fresh b) := by
      rw [List.find?_append]
      have h1 : ps.find? (hasId fresh) = none := by
        apply List.find?_eq_none.mpr
        intro x hx hcontra
        exact hfresh x hx ((hasId_eq_true_iff fresh x).mp hcontra)
      rw [h1]
      have h2 : hasId fresh (newProduct fresh b) = true :=
        (hasId_eq_true_iff fresh _).mpr hnp
      simp [List.find?_cons_of_pos _ h2]
    simp [getByIdRoute, hfind]

theorem c6_post_valid_body_inserts_witness :
    (validBody.id = none) ∧ (validateFails validBody = false) ∧
    (∀ p ∈ initialProducts, p.id ≠ some (.str "99")) ∧
    dispatch "99" (postReq validBody) initialProducts =
      (⟨201, .product (newProduct "99" validBody)⟩,
        initialProducts ++ [newProduct "99" validBody]) :=
  ⟨rfl, rfl, by decide,
    (c6_post_valid_body_inserts "99" validBody initialProducts rfl rfl (by decide)).1⟩

theorem deleteById_eq_eraseP (pid : String) (ps : List Obj) (p : Obj)
    (hnd : (ps.map Obj.id).Nodup) (hp : p ∈ ps) (hid : p.id = some (.str pid)) :
    deleteById pid ps = some (p, ps.eraseP (hasId pid)) := by
  induction ps with
  | nil => cases hp
  | cons q rest ih =>
    rw [List.map_cons, List.nodup_cons] at hnd
    by_cases hq : hasId pid q = true
    · have hpq : p = q := by
        rcases List.mem_cons.mp hp with h | h
        · exact h
        · exfalso
          apply hnd.1
          have hqid : q.id = p.id := by
            rw [(hasId_eq_true_iff pid q).mp hq, hid]
          rw [hqid]
          exact List.mem_map_of_mem Obj.id h
      subst hpq
      simp [deleteById, hq, List.eraseP_cons_of_pos hq]
    · have hpr : p ∈ rest := by
        rcases List.mem_cons.mp hp with h | h
        · exact absurd ((hasId_eq_true_iff pid q).mpr (h ▸ hid)) hq
        · exact h
      simp [deleteById, hq, ih hnd.2 hpr, List.eraseP_cons_of_neg hq]

theorem find?_eraseP_none (pid : String) (ps : List Obj)
    (hnd : (ps.map Obj.id).Nodup) :
    (ps.eraseP (hasId pid)).find? (hasId pid) = none := by
  induction ps with
  | nil => rfl
  | cons q rest ih =>
    rw [List.map_cons, List.nodup_cons] at hnd
    by_cases hq : hasId pid q = true
    · rw [List.eraseP_cons_of_pos hq]
      apply List.find?_eq_none.mpr
      intro x hx hcontra
      apply hnd.1
      have hxid : x.id = some (.str pid) := (hasId_eq_true_iff pid x).mp hcontra
      have hqid : q.id = some (.str pid) := (hasId_eq_true_iff pid q).mp hq
      rw [hqid, ← hxid]
      exact List.mem_map_of_mem Obj.id hx
    · rw [List.eraseP_cons_of_neg hq, List.find?_cons_of_neg _ hq]
      exact ih hnd.2

theorem deleteById_eq_none (pid : String) (ps : List Obj)
    (h : ∀ p ∈ ps, p.id ≠ some (.str pid)) :
    deleteById pid ps = none := by
  induction ps with
  | nil => rfl
  | cons q rest ih =>
    have hq : ¬ hasId pid q = true := fun hc =>
      h q (List.mem_cons_self q rest) ((hasId_eq_true_iff pid q).mp hc)
    simp [deleteById, hq, ih (fun p hp => h p (List.mem_cons_of_mem q hp))]

/-- C8: in a store whose live ids are unique (the data-model invariant),
an authorized `DELETE /api/products/:id` on a stored product's id removes
exactly that record and answers 200 with
`message "Product deleted"` and the removed record; a subsequent GET on
the same id then answers 404; for an id not present, DELETE answers 404
and the store is unchanged. -/
theorem c8_delete_removes_record (fresh pid : String) (ps : List Obj)
    (hnd : (ps.map Obj.id).Nodup) :
    (∀ p ∈ ps, p.id = some (.str pid) →
      dispatch fresh (delReq pid) ps =
        (⟨200, .deleted "Product deleted" p⟩, ps.eraseP (hasId pid)) ∧
      dispatch fresh (getReq pid) (ps.eraseP (hasId pid)) =
        (⟨404, .err "NotFoundError" "Product not found"⟩, ps.eraseP (hasId pid))) ∧
    ((∀ p ∈ ps, p.id ≠ some (.str pid)) →
      dispatch fresh (delReq pid) ps =
        (⟨404, .err "NotFoundError" "Product not found"⟩, ps)) := by
  have e : dispatch fresh (delReq pid) ps = deleteRoute pid ps := rfl
  constructor
  · intro p hp hid
    have e2 : dispatch fresh (getReq pid) (ps.eraseP (hasId pid)) =
        getByIdRoute pid (ps.eraseP (hasId pid)) := rfl
    rw [e, e2]
    constructor
    · simp [deleteRoute, deleteById_eq_eraseP pid ps p hnd hp hid]
    · simp [getByIdRoute, find?_eraseP_none pid ps hnd, errorHandler, notFoundErr, jsOrStatus]
  · intro h
    rw [e]
    simp [deleteRoute, deleteById_eq_none pid ps h, errorHandler, notFoundErr, jsOrStatus]

theorem c8_delete_removes_record_witness :
    ((initialProducts.map Obj.id).Nodup) ∧ (seed2 ∈ initialProducts) ∧
    (seed2.id = some (.str "2")) ∧
    dispatch "f" (delReq "2") initialProducts =
      (⟨200, .deleted "Product deleted" seed2⟩, initialProducts.eraseP (hasId "2")) ∧
    dispatch "f" (getReq "2") (initialProducts.eraseP (hasId "2")) =
      (⟨404, .err "NotFoundError" "Product not found"⟩, initialProducts.eraseP (hasId "2")) :=
  ⟨by decide, by decide, rfl,
    ((c8_delete_removes_record "f" "2" initialProducts (by decide)).1 seed2 (by decide) rfl)⟩
